import Mathlib

set_option maxRecDepth 100000

/-!
Verification of the multi-agent orchestration core of a chatbot assistant:
the supervisor/router, worker nodes, post-turn persistence/summarization,
and the streaming buffer, embedded shallowly from the Python sources.
-/

/-- A structured tool call carried by an assistant message
(mirrors the langchain dict `{"name": ..., "args": ..., "id": ...}`). -/
structure ToolCall where
  name : String
  args : List (String × String)
  id : String
  deriving DecidableEq

/-- A message of a run (langchain `HumanMessage` / `AIMessage` / `ToolMessage` /
`SystemMessage`).  Content is modelled as plain text; multimodal list content
only affects payload normalization, not any property settled here. -/
inductive Msg
  | human (content : String) (name : Option String)
  | ai (content : String) (tool_calls : List ToolCall)
  | tool (content : String)
  | system (content : String)
  deriving DecidableEq

/-- `isinstance(msg, HumanMessage)`. -/
def Msg.isHuman : Msg → Bool
  | .human _ _ => true
  | _ => false

/-- `pat.isPrefixOf`-style check on character lists. -/
def hasPrefixL : List Char → List Char → Bool
  | [], _ => true
  | _ :: _, [] => false
  | p :: ps, c :: cs => p = c && hasPrefixL ps cs

/-- Occurrence of `pat` anywhere in `s` (character lists). -/
def occursIn (pat : List Char) : List Char → Bool
  | [] => hasPrefixL pat []
  | c :: cs => hasPrefixL pat (c :: cs) || occursIn pat cs

/-- Python `pat in s` on strings. -/
def strIn (pat s : String) : Bool := occursIn pat.data s.data

/-- A Python runtime error raised inside a node.  `rateLimited` stands for
an exception whose text contains "429" or "ResourceExhausted"; `other` is
any other model-call exception. -/
inductive PyErr
  | valueError
  | indexError
  | rateLimited
  | other
  deriving DecidableEq

deriving instance DecidableEq for Except

/-- One row returned by `ConversationRepository.get_history`
(src/repository/conversation_repository.py line 105): the repository
appends the 3-tuple `(role, message, name)` for each persisted message. -/
structure HistRow where
  role : String
  message : String
  name : String
  deriving DecidableEq

/-- Python unpacking of a 3-tuple into four targets, as written in
`for role, content, name, _ in history_tuples` (router_node.py line 94,
search_node.py line 65).  A 3-tuple never unpacks into four names, so this
raises `ValueError` at runtime. -/
def unpack4 (_ : HistRow) : Except PyErr (String × String × String × String) :=
  .error .valueError

/-- Python unpacking of a 3-tuple into two targets, as written in
`for role, content in to_summarize` (common_nodes.py line 128).  A 3-tuple
never unpacks into two names, so this raises `ValueError` at runtime. -/
def unpack2 (_ : HistRow) : Except PyErr (String × String) :=
  .error .valueError

/-- The history-to-messages loop of router_node.py lines 94-98 and
search_node.py lines 65-69: each row is unpacked into four targets and
converted to a `HumanMessage` or `AIMessage`. -/
def histToMessages : List HistRow → Except PyErr (List Msg)
  | [] => .ok []
  | r :: rs => do
    let (role, content, name, _) ← unpack4 r
    let rest ← histToMessages rs
    if role = "user" then
      .ok (Msg.human content (some name) :: rest)
    else
      .ok (Msg.ai content [] :: rest)

/-- The optional summary banner prepended to the model input
(router_node.py lines 88-89, search_node.py lines 59-60). -/
def summaryBanner : Option String → List Msg
  | some s => [Msg.system ("Previous conversation summary: " ++ s)]
  | none => []

/-- The full model-input message list: summary banner, then converted
persisted history, then the current run's messages. -/
def buildMessages (summary : Option String) (histMsgs msgs : List Msg) : List Msg :=
  summaryBanner summary ++ histMsgs ++ msgs

/-- The pydantic `Literal` type of `RouteDecision.next_agent`
(agent/state.py lines 7-11). -/
inductive NextAgent
  | Researcher
  | GeneralAssistant
  | NotionSearch
  | FINISH
  deriving DecidableEq

/-- The string value of a `next_agent` literal. -/
def NextAgent.name : NextAgent → String
  | .Researcher => "Researcher"
  | .GeneralAssistant => "GeneralAssistant"
  | .NotionSearch => "NotionSearch"
  | .FINISH => "FINISH"

/-- The structured routing decision produced by the supervisor's model call
(agent/state.py). -/
structure RouteDecision where
  next_agent : NextAgent
  reasoning : String
  deriving DecidableEq

/-- `MEMBERS` from router_node.py line 16. -/
def MEMBERS : List String := ["Researcher", "GeneralAssistant", "NotionSearch"]

/-- Hybrid router outcome (router_node.py lines 111-132): when the local
router is enabled its result is used, a local failure falls back to the
Gemini chain; otherwise the Gemini chain is used directly.  The two chain
invocations are external model calls and enter the embedding as `Except`
outcomes. -/
def decisionOf (useLocalRouter : Bool)
    (localOutcome geminiOutcome : Except PyErr RouteDecision) :
    Except PyErr RouteDecision :=
  if useLocalRouter then
    match localOutcome with
    | .ok d => .ok d
    | .error _ => geminiOutcome
  else geminiOutcome

/-- The assistant-authored contents of the run's last 10 messages
(router_node.py lines 156-157):
`ai_messages = [m.content for m in state["messages"][-10:] if isinstance(m, AIMessage)]`. -/
def aiContentsLast10 (msgs : List Msg) : List String :=
  (msgs.drop (msgs.length - 10)).filterMap fun m =>
    match m with
    | .ai c _ => some c
    | _ => none

/-- The post-decision logic of `supervisor_node`: the ROBUST FAIL-SAFE
(router_node.py lines 147-153) followed by the Loop Detection Logic
(lines 155-178), as a pure function from the run's messages and the
decided `next_step` to the routing value the node returns.  Each early
`return` of the source is a result of this function. -/
def supervisorRoute (msgs : List Msg) (next_step : String) : String :=
  -- ROBUST FAIL-SAFE (lines 148-153)
  if (msgs.getLast?.elim false Msg.isHuman) && next_step = "FINISH" then
    "Researcher"
  else
    -- Loop Detection Logic (lines 155-176)
    let ai_messages := aiContentsLast10 msgs
    if ai_messages.length ≥ 3 then
      match ai_messages.reverse with
      | a1 :: a2 :: a3 :: rest =>
        if a1 = a2 ∧ a2 = a3 then
          "FINISH"
        else if (strIn "Successfully created Notion page" a1 ||
                 strIn "Successfully updated Notion page" a1) &&
                next_step = "NotionSearch" then
          "FINISH"
        else if ai_messages.length ≥ 4 then
          match rest with
          | a4 :: _ =>
            if a1 = a3 ∧ a2 = a4 then "FINISH" else next_step
          | [] => next_step
        else next_step
      | _ => next_step
    else next_step

/-- `supervisor_node` (src/agent/nodes/router_node.py lines 19-179).
The two model chains are abstracted as `Except` outcomes; everything after
the decision (fail-safe and loop detection) is `supervisorRoute`.  The
history loop at lines 94-98 unpacks each fetched row into four targets,
which raises `ValueError` for the repository's 3-tuples whenever the
fetched history is non-empty. -/
def supervisorNode (summary : Option String) (histRows : List HistRow)
    (msgs : List Msg) (useLocalRouter : Bool)
    (localOutcome geminiOutcome : Except PyErr RouteDecision) :
    Except PyErr String :=
  match histToMessages histRows with
  | .error e => .error e
  | .ok histMsgs =>
    let _llmInput := buildMessages summary histMsgs msgs
    match decisionOf useLocalRouter localOutcome geminiOutcome with
    | .error _ =>
      -- `except Exception: return {"next": "GeneralAssistant"}` (lines 139-141)
      .ok "GeneralAssistant"
    | .ok result_decision =>
      .ok (supervisorRoute msgs result_decision.next_agent.name)

/-- The text content of a message (`msg.content`). -/
def Msg.content : Msg → String
  | .human c _ => c
  | .ai c _ => c
  | .tool c => c
  | .system c => c

/-- The partial state update returned by a worker node: the keys of the
returned dict.  A key absent from the dict is `none`. -/
structure WorkerUpdate where
  messages : List Msg
  input_tokens_used : Option Nat
  output_tokens_used : Option Nat
  applied_system_prompt : Option String
  deriving DecidableEq

/-- `for msg in reversed(messages): if isinstance(msg, HumanMessage):
user_query = msg.content; break` with initial value `""`
(search_node.py lines 81-85, notion_node.py lines 26-30). -/
def lastHumanContent (messages : List Msg) : String :=
  (messages.reverse.findSome? fun m =>
    match m with
    | .human c _ => some c
    | _ => none).getD ""

/-- The fixed text of the system prompt the Researcher chain actually
sends, before the current time is appended (search_node.py lines 25-42). -/
def researcherAppliedHeader : String :=
  "You are a research agent with access to search tools and a time tool.\n" ++
  "For every user question, you MUST use tools to find information.\n" ++
  "Workflow:\n" ++
  "1) First, search using `search_internal_knowledge`.\n" ++
  "2) If results are missing or insufficient, use `search_google`.\n" ++
  "3) Summarize the findings and answer clearly.\n" ++
  "4) Always cite sources when using `search_internal_knowledge`.\n" ++
  "Do NOT rely on internal knowledge alone.\n" ++
  "Do NOT simulate user dialogue.\n" ++
  "Current time: "

/-- The system prompt the Researcher chain actually sends
(search_node.py lines 25-42). -/
def researcherAppliedPrompt (now : String) : String :=
  researcherAppliedHeader ++ now

/-- The fixed text of the string recorded as `applied_system_prompt` by the
Researcher, before the current time is appended (search_node.py lines
97-106). -/
def researcherRecordedHeader : String :=
  "You are a Researcher. You have access to search tools and a time tool." ++
  " Use them to find information requested by the user." ++
  " If you have found the information, summarize it and answer the user.\n" ++
  "IMPORTANT: If the user asks for ANY information, you MUST use the provided tools (search_internal_knowledge or search_google) to find it. Do not rely on your internal knowledge alone.\n" ++
  "IMPORTANT: When using the 'search_internal_knowledge' tool, you MUST cite the source of the information in your response. The tool output provides the source (e.g., 'Source: ...'). Append the source at the end of your answer.\n" ++
  "IMPORTANT: Do not simulate the user. Do not generate 'User:' or 'Human:' dialogue.\n" ++
  "Current Time: "

/-- The string recorded as `applied_system_prompt` by the Researcher
(search_node.py lines 97-106); note it differs from
`researcherAppliedPrompt`. -/
def researcherRecordedPrompt (now : String) : String :=
  researcherRecordedHeader ++ now

/-- The result of one Researcher step: the tool-binding mode chosen
(`tool_choice` forced to the retrieval tool or left to the model) and the
returned state update. -/
structure ResearcherRun where
  forcedTool : Option String
  update : WorkerUpdate
  deriving DecidableEq

/-- `researcher_node` (src/agent/nodes/search_node.py lines 15-121).
The chain invocation is abstracted as its returned content, tool calls and
usage metadata; `fallbackId` stands for the generated `uuid4().hex[:8]`.
Replacing the response in the fallback branch also discards the original
usage metadata, because line 112 inspects the reassigned `response`. -/
def researcherNode (summary : Option String) (histRows : List HistRow)
    (msgs : List Msg) (respContent : String) (respToolCalls : List ToolCall)
    (respUsage : Option (Nat × Nat)) (prevIn prevOut : Nat)
    (fallbackId : String) (now : String) : Except PyErr ResearcherRun :=
  -- `last_message = state["messages"][-1]` (IndexError on an empty list)
  match msgs.getLast? with
  | none => .error .indexError
  | some last =>
    let force_retrieval := last.isHuman
    let forcedTool :=
      if force_retrieval then some "search_internal_knowledge" else none
    match histToMessages histRows with
    | .error e => .error e
    | .ok histMsgs =>
      let messages := buildMessages summary histMsgs msgs
      -- FALLBACK LOGIC (lines 75-95)
      let response :=
        if respContent = "" ∧ respToolCalls = [] then
          match messages.getLast? with
          | some (.tool tcontent) =>
            if strIn "No relevant documents found" tcontent then
              let user_query := lastHumanContent messages
              if user_query ≠ "" then
                (Msg.ai ""
                  [⟨"tavily_search", [("query", user_query)], "call_" ++ fallbackId⟩],
                 (none : Option (Nat × Nat)))
              else (Msg.ai respContent respToolCalls, respUsage)
            else (Msg.ai respContent respToolCalls, respUsage)
          | _ => (Msg.ai respContent respToolCalls, respUsage)
        else (Msg.ai respContent respToolCalls, respUsage)
      let (input_tokens, output_tokens) :=
        match response.2 with
        | some (i, o) => (prevIn + i, prevOut + o)
        | none => (prevIn, prevOut)
      .ok ⟨forcedTool,
        ⟨[response.1], some input_tokens, some output_tokens,
         some (researcherRecordedPrompt now)⟩⟩

/-- `state.get("persona_content") or "You are a helpful AI assistant."`
(chat_node.py line 9): a missing or empty persona falls back to the
default. -/
def personaOrDefault : Option String → String
  | some p => if p = "" then "You are a helpful AI assistant." else p
  | none => "You are a helpful AI assistant."

/-- The system prompt built by the GeneralAssistant (chat_node.py lines 14
and 34: the same expression is used for the chain and for the recorded
prompt). -/
def gaSystemPrompt (persona now : String) : String :=
  persona ++
  "\nIMPORTANT: Do not simulate the user. Do not generate 'User:' or 'Human:' dialogue.\nCurrent Time: " ++
  now

/-- `general_assistant_node` (src/agent/nodes/chat_node.py lines 6-51). -/
def generalAssistantNode (persona_content : Option String) (_msgs : List Msg)
    (respContent : String) (respToolCalls : List ToolCall)
    (respUsage : Option (Nat × Nat)) (prevIn prevOut : Nat) (now : String) :
    WorkerUpdate :=
  let persona := personaOrDefault persona_content
  let full_system_prompt := gaSystemPrompt persona now
  let (input_tokens, output_tokens) :=
    match respUsage with
    | some (i, o) => (prevIn + i, prevOut + o)
    | none => (prevIn, prevOut)
  ⟨[Msg.ai respContent respToolCalls], some input_tokens, some output_tokens,
   some full_system_prompt⟩

/-- `args.get(k)` rendered inside an f-string: a missing key prints as
"None". -/
def lookupArg (tc : ToolCall) (k : String) : String :=
  ((tc.args.find? fun p => p.1 = k).map Prod.snd).getD "None"

/-- The `last_user_message` lookup of `notion_node` (notion_node.py lines
26-35): the content of the last HumanMessage, falling back to
`messages[-1].content` (IndexError on an empty list) when no human message
was found or its content is empty. -/
def notionLastUserMessage (msgs : List Msg) : Except PyErr String :=
  -- `last_user_message`: last HumanMessage content, else `messages[-1].content`
  -- (IndexError on an empty list) when none was found or it is empty
  let fromHuman := msgs.reverse.findSome? fun m =>
    match m with
    | .human c _ => some c
    | _ => none
  match fromHuman with
  | some c =>
    if c = "" then
      match msgs.getLast? with
      | some m => Except.ok m.content
      | none => Except.error PyErr.indexError
    else Except.ok c
  | none =>
    match msgs.getLast? with
    | some m => Except.ok m.content
    | none => Except.error PyErr.indexError

/-- `notion_node` (src/agent/nodes/notion_node.py lines 18-155).  The
intent-classification chain result is `classified`; the external Notion
client and search chain are abstracted as `searchText` (output of
`notion_search_chain`), `createUrl` (URL of a created page, `none` on
failure) and `updateOk`; `errored` is a raised exception anywhere in the
`try` block.  The node returns only a `messages` key: no token counters
and no applied system prompt. -/
def notionNode (msgs : List Msg) (classified : List ToolCall)
    (searchText : String) (createUrl : Option String) (updateOk : Bool)
    (errored : Bool) : Except PyErr WorkerUpdate :=
  match notionLastUserMessage msgs with
  | .error e => .error e
  | .ok _last_user_message =>
  let response_text :=
    if errored then "An error occurred while accessing Notion."
    else
      match classified.head? with
      | none => searchText
      | some tc =>
        if tc.name = "search_notion" then searchText
        else if tc.name = "create_page" then
          match createUrl with
          | some url =>
            "Successfully created Notion page: [" ++ lookupArg tc "title" ++
              "](" ++ url ++ ")"
          | none => "Failed to create Notion page. Please check logs."
        else if tc.name = "update_page" then
          if updateOk then
            "Successfully updated Notion page " ++ lookupArg tc "page_id" ++ "."
          else "Failed to update Notion page. Please check logs."
        else "I couldn't understand your request regarding Notion."
  .ok ⟨[Msg.ai response_text []], none, none, none⟩

/-- One `add_message` call issued by the Persist step
(repository/conversation_repository.py lines 114-145). -/
structure PersistWrite where
  user_id : String
  chat_room_id : String
  role : String
  message : String
  model : Option String
  input_tokens : Option Nat
  output_tokens : Option Nat
  deriving DecidableEq

/-- `save_conversation_node` (src/agent/nodes/common_nodes.py lines 26-109):
the list of `add_message` calls it issues.  Multimodal content
normalization only rewrites the written payload and is out of scope here;
the vector-store indexing happens inside the same guarded branch. -/
def saveConversationNode (user_id chat_room_id : String) (msgs : List Msg)
    (prevIn prevOut : Nat) (model_name : Option String) : List PersistWrite :=
  match msgs.getLast? with
  | none => []
  | some ai_message =>
    match msgs.find? Msg.isHuman, ai_message with
    | some (.human user_content _), .ai ai_content tcs =>
      if tcs = [] then
        [⟨user_id, chat_room_id, "user", user_content, none, none, none⟩,
         ⟨user_id, chat_room_id, "assistant", ai_content,
          some (model_name.getD "gemini-pro"),
          if prevIn > 0 then some prevIn else none,
          if prevOut > 0 then some prevOut else none⟩]
      else []
    | _, _ => []

/-- The claim's premise for the Persist step: the run has a user message
and ends in an assistant message with no pending tool calls. -/
def goodEnding (msgs : List Msg) : Bool :=
  (msgs.find? Msg.isHuman).isSome &&
  (match msgs.getLast? with
   | some (.ai _ tcs) => tcs.isEmpty
   | _ => false)

/-- The line-building comprehension of the Summarize step
(common_nodes.py line 128): each history row is unpacked into the two
targets `role, content`. -/
def summarizeLines : List HistRow → Except PyErr (List String)
  | [] => .ok []
  | r :: rs => do
    let (role, content) ← unpack2 r
    let rest ← summarizeLines rs
    .ok ((role ++ ": " ++ content) :: rest)

/-- The observable outcome of the Summarize step: the state update it
returns and the summary it writes back to the room (if any). -/
structure SummarizeOut where
  summaryUpdate : Option String
  savedSummary : Option String
  deriving DecidableEq

/-- `summarize_conversation_node` (src/agent/nodes/common_nodes.py lines
111-161).  `llmOutcome` is the merge-summary model call; a rate-limit
failure is swallowed, any other model failure propagates. -/
def summarizeConversationNode (histRows : List HistRow)
    (summary : Option String) (llmOutcome : Except PyErr String) :
    Except PyErr SummarizeOut :=
  if histRows.length > 10 then
    let to_summarize := histRows.take (histRows.length - 4)
    if to_summarize = [] then .ok ⟨none, none⟩
    else
      match summarizeLines to_summarize with
      | .error e => .error e
      | .ok lines =>
        let _conversation_text := String.intercalate "\n" lines
        let _current_summary := summary.getD ""
        match llmOutcome with
        | .ok new_summary => .ok ⟨some new_summary, some new_summary⟩
        | .error e =>
          if e = PyErr.rateLimited then .ok ⟨none, none⟩ else .error e
  else .ok ⟨none, none⟩

/-- The streaming buffer (src/services/streaming_helper.py lines 10-60).
Wall-clock times are modelled as natural-number timestamps supplied at
each call. -/
structure StreamBuffer where
  buffer : String
  time_threshold : Nat
  char_threshold : Nat
  last_flush_time : Nat
  deriving DecidableEq

/-- `StreamBuffer.flush` (lines 51-56): return the accumulated text, empty
the buffer and reset the flush clock. -/
def StreamBuffer.flush (b : StreamBuffer) (now : Nat) : StreamBuffer × String :=
  ({ b with buffer := "", last_flush_time := now }, b.buffer)

/-- `StreamBuffer.add` (lines 27-49): append the text, then flush when the
character count reaches the character threshold or the time since the last
flush reaches the time threshold. -/
def StreamBuffer.add (b : StreamBuffer) (text : String) (now : Nat) :
    StreamBuffer × Option String :=
  let b := { b with buffer := b.buffer ++ text }
  let time_elapsed := now - b.last_flush_time
  if b.buffer.length ≥ b.char_threshold ∨ time_elapsed ≥ b.time_threshold then
    let (b2, t) := b.flush now
    (b2, some t)
  else (b, none)

/-- `StreamBuffer.has_content` (lines 58-60). -/
def StreamBuffer.has_content (b : StreamBuffer) : Bool :=
  b.buffer.length > 0

/-- `extract_text_from_stream_event` (streaming_helper.py lines 63-105):
iterate the event's `(node name, node output)` items; from the last message
of an output, return the content of an assistant message that has no tool
calls and non-empty content, skipping everything else.  Multimodal list
content only changes how the text is concatenated and is out of scope. -/
def extractText : List (String × List Msg) → Option String
  | [] => none
  | (_, ms) :: rest =>
    match ms.getLast? with
    | some (.ai c tcs) =>
      if tcs.isEmpty = false then extractText rest
      else if c ≠ "" then some c
      else extractText rest
    | _ => extractText rest

/-- One stream event paired with its arrival time. -/
def StreamEvent : Type := List (String × List Msg) × Nat

/-- `stream_with_buffer` (streaming_helper.py lines 108-135): extract text
from each event, add it to the buffer, yield each flushed chunk, and flush
any remainder at stream end (`endTime` is the time of the final
`has_content` check). -/
def streamWithBuffer (b : StreamBuffer) (endTime : Nat) :
    List StreamEvent → List String
  | [] => if b.has_content then [(b.flush endTime).2] else []
  | (ev, now) :: rest =>
    match extractText ev with
    | none => streamWithBuffer b endTime rest
    | some t =>
      if t = "" then streamWithBuffer b endTime rest
      else
        match b.add t now with
        | (b2, some f) =>
          if f = "" then streamWithBuffer b2 endTime rest
          else f :: streamWithBuffer b2 endTime rest
        | (b2, none) => streamWithBuffer b2 endTime rest

/-- The text a stream event contributes to the buffer (`""` when nothing
displayable is extracted). -/
def addedText (e : StreamEvent) : String :=
  (extractText e.1).getD ""

/-- Concatenation of a list of strings. -/
def concatStrs : List String → String
  | [] => ""
  | s :: rest => s ++ concatStrs rest

/-- An event stream carrying exactly the texts "Hello", "Hello", " World",
with no time-threshold crossings. -/
def c6events : List StreamEvent :=
  [([("GeneralAssistant", [.ai "Hello" []])], 0),
   ([("GeneralAssistant", [.ai "Hello" []])], 0),
   ([("GeneralAssistant", [.ai " World" []])], 0)]

/-- The nodes of the orchestration graph (src/agent/graph.py lines 14-21). -/
inductive GNode
  | retrieve_data
  | Supervisor
  | Researcher
  | GeneralAssistant
  | NotionSearch
  | tools
  | save_conversation
  | summarize_conversation
  deriving DecidableEq

/-- The target of one edge traversal: another node, the END node, or an
unmapped conditional-edge key. -/
inductive StepTarget
  | to (n : GNode)
  | finish
  | invalid
  deriving DecidableEq

/-- The conditional-edge map out of the Supervisor (agent/graph.py lines
28-37), keyed by the state's `next` value. -/
def supervisorEdge (next_decision : String) : StepTarget :=
  if next_decision = "Researcher" then .to .Researcher
  else if next_decision = "GeneralAssistant" then .to .GeneralAssistant
  else if next_decision = "NotionSearch" then .to .NotionSearch
  else if next_decision = "FINISH" then .to .save_conversation
  else .invalid

/-- The edges of the graph (agent/graph.py lines 24-58).  `decide` is the
routing value the supervisor writes to `next`; `toolCall` is whether the
Researcher's last message carries tool calls (`route_researcher`). -/
def graphNext (decide : String) (toolCall : Bool) : GNode → StepTarget
  | .retrieve_data => .to .Supervisor
  | .Supervisor => supervisorEdge decide
  | .Researcher => if toolCall then .to .tools else .to .Supervisor
  | .tools => .to .Researcher
  | .GeneralAssistant => .to .Supervisor
  | .NotionSearch => .to .Supervisor
  | .save_conversation => .to .summarize_conversation
  | .summarize_conversation => .finish

/-- A fatal run condition of the graph executor. -/
inductive RunErr
  | RecursionExceeded
  | InvalidEdge
  deriving DecidableEq

/-- Modelled from the spec: the step-budget contract of the graph runtime
(the LangGraph library, outside this repository's sources).  Per the spec,
each supervisor/worker hop increments a step counter and hitting the budget
aborts the run with a recursion-exceeded failure rather than looping
forever.  `runGraph decide toolCall n fuel` executes nodes starting at `n`
with a budget of `fuel` remaining steps and returns the number of steps
executed; attempting a step beyond the budget raises `RecursionExceeded`. -/
def runGraph (decide : String) (toolCall : Bool) : GNode → Nat → Except RunErr Nat
  | _, 0 => .error .RecursionExceeded
  | n, fuel + 1 =>
    match graphNext decide toolCall n with
    | .finish => .ok 1
    | .invalid => .error .InvalidEdge
    | .to m => (runGraph decide toolCall m fuel).map (· + 1)

/-- `config = {"recursion_limit": 20}` passed to the graph by both
`ask_question` and `ask_question_stream`
(src/services/conversation_service.py lines 43 and 113). -/
def recursionLimit : Nat := 20

/-- The fixed apology `ask_question` returns when the graph raises any
exception other than a rate limit (conversation_service.py lines 52-66):
the inner handler re-raises and the outer handler converts it to this
string, so a graph failure surfaces as an error response, never a hang. -/
def askQuestionOnGraphError (_e : RunErr) : String :=
  "죄송합니다. 오류가 발생했습니다."

/-- Nodes inside the supervisor/worker/tool cycle (the graph region that a
run forced to a fixed worker can visit). -/
def liveNode : GNode → Bool
  | .save_conversation => false
  | .summarize_conversation => false
  | _ => true

/-- The loop-detection premise of the spec: among the run's last 10
messages, there are at least 3 assistant-authored messages and the last 3
of them are character-identical. -/
def last3AiIdentical (msgs : List Msg) : Bool :=
  match (aiContentsLast10 msgs).reverse with
  | a1 :: a2 :: a3 :: _ => a1 = a2 && a2 = a3
  | _ => false

/-- Number of (possibly overlapping) occurrences of `pat` in a character
list. -/
def occCount (pat : List Char) : List Char → Nat
  | [] => 0
  | c :: cs => (if hasPrefixL pat (c :: cs) then 1 else 0) + occCount pat cs

/-- Number of occurrences of `pat` in `s`. -/
def occCountStr (pat s : String) : Nat := occCount pat.data s.data

/-- A 15-message persisted room history, as returned by `get_history`. -/
def c5history : List HistRow :=
  (List.range 15).map fun i =>
    ⟨if i % 2 = 0 then "user" else "assistant", "msg " ++ toString i, "U"⟩

/-- With an empty fetched history, the supervisor node reduces to the
routing pipeline applied to the model's decision. -/
theorem supervisorNode_ok (summary : Option String) (msgs : List Msg)
    (useL : Bool) (lo go : Except PyErr RouteDecision) (d : RouteDecision)
    (hdec : decisionOf useL lo go = .ok d) :
    supervisorNode summary [] msgs useL lo go =
      .ok (supervisorRoute msgs d.next_agent.name) := by
  simp only [supervisorNode, histToMessages, hdec]

/-- When the fail-safe does not fire and at least 3 assistant messages close
the 10-message window with identical contents, loop detection forces
FINISH. -/
theorem supervisorRoute_loop_finish (msgs : List Msg) (next_step : String)
    (hfs : (msgs.getLast?.elim false Msg.isHuman && next_step = "FINISH") = false)
    (h3 : last3AiIdentical msgs = true) :
    supervisorRoute msgs next_step = "FINISH" := by
  unfold last3AiIdentical at h3
  rcases hrev : (aiContentsLast10 msgs).reverse with _ | ⟨a1, _ | ⟨a2, _ | ⟨a3, rest⟩⟩⟩ <;>
    rw [hrev] at h3
  · simp at h3
  · simp at h3
  · simp at h3
  · have h' : a1 = a2 ∧ a2 = a3 := by simpa using h3
    have hlen3 : 3 ≤ (aiContentsLast10 msgs).length := by
      have h := congrArg List.length hrev
      rw [List.length_reverse] at h
      simp [h]
    unfold supervisorRoute
    rw [hfs]
    simp only [Bool.false_eq_true, if_false]
    rw [hrev]
    simp [hlen3, h']

/-- Claim C2, counterexample.  The claim states that whenever the last 3
assistant-authored messages among the run's last 10 messages are identical
strings, the supervisor's returned decision is FINISH regardless of the
model's choice.  At this input the premise holds and the model chose
FINISH, yet the node returns "Researcher": the fresh-user-message fail-safe
(router_node.py lines 148-153) runs before loop detection (lines 155-176)
and returns first. -/
theorem claim_C2_counterexample :
    last3AiIdentical [.ai "x" [], .ai "x" [], .ai "x" [], .human "q" none] = true ∧
    supervisorNode none [] [.ai "x" [], .ai "x" [], .ai "x" [], .human "q" none]
      false (.error .other) (.ok ⟨.FINISH, "loop detected"⟩) = .ok "Researcher" ∧
    ("Researcher" : String) ≠ "FINISH" := by
  refine ⟨by decide, by decide, by decide⟩

/-- Claim C2 (amended): when the supervisor step obtains a model decision
and the last 3 assistant-authored messages among the run's last 10 messages
are character-identical, the returned decision is FINISH — unless the
fresh-user-message fail-safe fires first (the model decided FINISH and the
run's last message is a user message), in which case "Researcher" is
returned; a non-empty fetched history instead faults the step (see C5's
unpacking defect).  Stated for an empty fetched history. -/
theorem claim_C2_amended (summary : Option String) (msgs : List Msg)
    (useL : Bool) (lo go : Except PyErr RouteDecision) (d : RouteDecision)
    (hdec : decisionOf useL lo go = .ok d)
    (h3 : last3AiIdentical msgs = true)
    (hfs : (msgs.getLast?.elim false Msg.isHuman && d.next_agent.name = "FINISH") = false) :
    supervisorNode summary [] msgs useL lo go = .ok "FINISH" := by
  rw [supervisorNode_ok summary msgs useL lo go d hdec,
    supervisorRoute_loop_finish msgs d.next_agent.name hfs h3]

/-- Witness for C2 (amended): three identical assistant replies and a
worker decision from the model yield a forced FINISH. -/
theorem claim_C2_amended_witness :
    supervisorNode none [] [.ai "x" [], .ai "x" [], .ai "x" []]
      false (.error .other) (.ok ⟨.GeneralAssistant, "continue"⟩) = .ok "FINISH" :=
  claim_C2_amended none [.ai "x" [], .ai "x" [], .ai "x" []] false (.error .other)
    (.ok ⟨.GeneralAssistant, "continue"⟩) ⟨.GeneralAssistant, "continue"⟩ rfl
    (by decide) (by decide)

/-- Claim C3, counterexample.  The claim states that when the run's most
recent message is a fresh user message the supervisor never returns FINISH.
At this input the last message is a fresh user message and the model chose
a worker, yet loop detection (which runs after the fail-safe and does not
re-check the last message) returns FINISH. -/
theorem claim_C3_counterexample :
    ([Msg.ai "x" [], .ai "x" [], .ai "x" [], .human "q" none].getLast?.elim
      false Msg.isHuman = true) ∧
    supervisorNode none [] [.ai "x" [], .ai "x" [], .ai "x" [], .human "q" none]
      false (.error .other) (.ok ⟨.GeneralAssistant, "answer the user"⟩) =
      .ok "FINISH" := by
  refine ⟨by decide, by decide⟩

/-- Claim C3 (amended): when the supervisor step obtains a model decision,
the run's last message is a fresh user message and the decision is FINISH,
the node overrides it to the default worker "Researcher".  FINISH can still
be returned for such a step when the model picks a worker and loop
detection fires (see the counterexample).  Stated for an empty fetched
history. -/
theorem claim_C3_amended (summary : Option String) (msgs : List Msg)
    (useL : Bool) (lo go : Except PyErr RouteDecision) (d : RouteDecision)
    (hdec : decisionOf useL lo go = .ok d)
    (hlast : msgs.getLast?.elim false Msg.isHuman = true)
    (hfin : d.next_agent = NextAgent.FINISH) :
    supervisorNode summary [] msgs useL lo go = .ok "Researcher" := by
  rw [supervisorNode_ok summary msgs useL lo go d hdec, hfin]
  unfold supervisorRoute
  rw [hlast]
  simp [NextAgent.name]

/-- Witness for C3 (amended): a lone fresh user message with a FINISH
decision is overridden to Researcher. -/
theorem claim_C3_amended_witness :
    supervisorNode none [] [.human "q" none] false (.error .other)
      (.ok ⟨.FINISH, "done"⟩) = .ok "Researcher" :=
  claim_C3_amended none [.human "q" none] false (.error .other)
    (.ok ⟨.FINISH, "done"⟩) ⟨.FINISH, "done"⟩ rfl (by decide) rfl

/-- Claim C9: whenever constructing or invoking the routing decision fails
(the hybrid decision outcome is an error: for the enabled local router this
means the Gemini fallback also failed), the supervisor returns the
general-conversation worker rather than failing the run
(router_node.py lines 134-141). -/
theorem claim_C9 (summary : Option String) (msgs : List Msg) (useL : Bool)
    (lo go : Except PyErr RouteDecision) (e : PyErr)
    (hdec : decisionOf useL lo go = .error e) :
    supervisorNode summary [] msgs useL lo go = .ok "GeneralAssistant" := by
  simp only [supervisorNode, histToMessages, hdec]

/-- Witness for C9: a failed Gemini decision routes to GeneralAssistant. -/
theorem claim_C9_witness :
    supervisorNode none [] [.human "hi" none] false (.error .other)
      (.error .other) = .ok "GeneralAssistant" :=
  claim_C9 none [.human "hi" none] false (.error .other) (.error .other) .other rfl

/-- A run whose router always picks the same worker never leaves the
supervisor/worker/tool cycle: it exhausts any step budget. -/
theorem runGraph_live_stuck (w : String) (hw : w ∈ MEMBERS) (tc : Bool) :
    ∀ (fuel : Nat) (n : GNode), liveNode n = true →
      runGraph w tc n fuel = .error .RecursionExceeded := by
  have hw' : w = "Researcher" ∨ w = "GeneralAssistant" ∨ w = "NotionSearch" := by
    simpa [MEMBERS] using hw
  intro fuel
  induction fuel with
  | zero => intro n _; cases n <;> rfl
  | succ k ih =>
    intro n hn
    have hsup : runGraph w tc GNode.Supervisor (k + 1) = .error .RecursionExceeded := by
      rcases hw' with h | h | h <;> subst h
      · simp [runGraph, graphNext, supervisorEdge, ih GNode.Researcher rfl, Except.map]
      · simp [runGraph, graphNext, supervisorEdge, ih GNode.GeneralAssistant rfl, Except.map]
      · simp [runGraph, graphNext, supervisorEdge, ih GNode.NotionSearch rfl, Except.map]
    cases n with
    | retrieve_data => simp [runGraph, graphNext, ih GNode.Supervisor rfl, Except.map]
    | Supervisor => exact hsup
    | Researcher =>
      cases tc
      · simp [runGraph, graphNext, ih GNode.Supervisor rfl, Except.map]
      · simp [runGraph, graphNext, ih GNode.tools rfl, Except.map]
    | GeneralAssistant => simp [runGraph, graphNext, ih GNode.Supervisor rfl, Except.map]
    | NotionSearch => simp [runGraph, graphNext, ih GNode.Supervisor rfl, Except.map]
    | tools => simp [runGraph, graphNext, ih GNode.Researcher rfl, Except.map]
    | save_conversation => simp [liveNode] at hn
    | summarize_conversation => simp [liveNode] at hn

/-- Claim C1: with the configured step budget of 20
(`recursion_limit` in conversation_service.py), a run whose router is
forced to always pick the same worker never terminates normally for any
budget, and in particular raises a RecursionExceeded failure when its
budget of 20 steps is exhausted — i.e. at step 21 — instead of looping
forever; the service surfaces it to the caller as a fixed error response. -/
theorem claim_C1 (w : String) (hw : w ∈ MEMBERS) (tc : Bool) :
    (∀ fuel, runGraph w tc .retrieve_data fuel = .error .RecursionExceeded) ∧
    runGraph w tc .retrieve_data recursionLimit = .error .RecursionExceeded ∧
    askQuestionOnGraphError .RecursionExceeded = "죄송합니다. 오류가 발생했습니다." := by
  refine ⟨fun fuel => runGraph_live_stuck w hw tc fuel _ rfl,
    runGraph_live_stuck w hw tc recursionLimit _ rfl, rfl⟩

/-- Witness for C1: forcing the router to "Researcher" exhausts the budget
of 20. -/
theorem claim_C1_witness :
    runGraph "Researcher" false .retrieve_data recursionLimit =
      .error .RecursionExceeded :=
  (claim_C1 "Researcher" (by decide) false).2.1

/-- Claim C7: whenever the run's message list does not end in an assistant
message free of pending tool calls, or contains no user message, the
Persist step issues no `add_message` call at all
(common_nodes.py lines 26-109). -/
theorem claim_C7 (user_id chat_room_id : String) (msgs : List Msg)
    (prevIn prevOut : Nat) (model_name : Option String)
    (h : goodEnding msgs = false) :
    saveConversationNode user_id chat_room_id msgs prevIn prevOut model_name = [] := by
  unfold goodEnding at h
  unfold saveConversationNode
  cases hml : msgs.getLast? with
  | none => rfl
  | some last =>
    rw [hml] at h
    cases hf : msgs.find? Msg.isHuman with
    | none =>
      cases last <;> simp
    | some m =>
      rw [hf] at h
      simp only [Option.isSome_some, Bool.true_and] at h
      cases m with
      | human uc nm =>
        cases last with
        | ai ac tcs =>
          cases tcs with
          | nil => simp [List.isEmpty] at h
          | cons t ts => simp
        | human c nm2 => simp
        | tool c => simp
        | system c => simp
      | ai c tcs =>
        cases last <;> simp
      | tool c =>
        cases last <;> simp
      | system c =>
        cases last <;> simp

/-- Witness for C7: a run ending in an assistant message that still carries
a tool call persists nothing. -/
theorem claim_C7_witness :
    saveConversationNode "u1" "room1"
      [.human "hi" none, .ai "" [⟨"search_google", [("query", "hi")], "c1"⟩]]
      3 4 none = [] :=
  claim_C7 "u1" "room1"
    [.human "hi" none, .ai "" [⟨"search_google", [("query", "hi")], "c1"⟩]]
    3 4 none (by decide)

/-- Any history longer than 10 rows makes the Summarize step raise
`ValueError`: the comprehension at common_nodes.py line 128 unpacks the
repository's `(role, message, name)` 3-tuples into only two targets. -/
theorem summarizeConversationNode_valueError (histRows : List HistRow)
    (summary : Option String) (llmOutcome : Except PyErr String)
    (hlen : 10 < histRows.length) :
    summarizeConversationNode histRows summary llmOutcome = .error .valueError := by
  unfold summarizeConversationNode
  rw [if_pos hlen]
  have hne : histRows.take (histRows.length - 4) ≠ [] := by
    intro hnil
    have := congrArg List.length hnil
    rw [List.length_take] at this
    simp at this
    omega
  rw [if_neg hne]
  cases htk : histRows.take (histRows.length - 4) with
  | nil => exact absurd htk hne
  | cons r rs => rfl

/-- Claim C5 (code defect): run on a 15-message persisted history, the
summarization step does not summarize the first 11 messages and write the
merged summary back — it raises `ValueError` while building the
conversation text, because `get_history` returns `(role, message, name)`
3-tuples (conversation_repository.py line 105) and common_nodes.py line 128
unpacks each into only `role, content`.  The step's own trigger comment and
the repository test (src/tests/test_summarization.py, which mocks 2-tuples)
show the summarize-all-but-4 behaviour is the intent. -/
theorem claim_C5 :
    c5history.length = 15 ∧
    summarizeConversationNode c5history (some "old summary") (.ok "New Summary") =
      .error .valueError := by
  exact ⟨by decide, summarizeConversationNode_valueError c5history
    (some "old summary") (.ok "New Summary") (by decide)⟩

/-- When the model input built from an empty fetched history ends in a
tool message, that tool message is the last message of the run itself (the
summary banner holds only system messages). -/
theorem getLast_tool_of_buildMessages (summary : Option String)
    (msgs : List Msg) (tcontent : String)
    (hlast : (buildMessages summary [] msgs).getLast? = some (.tool tcontent)) :
    msgs.getLast? = some (Msg.tool tcontent) := by
  rw [buildMessages, List.getLast?_append] at hlast
  cases hm : msgs.getLast? with
  | none =>
    rw [hm] at hlast
    cases summary with
    | none => simp [summaryBanner] at hlast
    | some s => simp [summaryBanner] at hlast
  | some m =>
    rw [hm] at hlast
    simpa using hlast

/-- Claim C4, counterexample.  The claim requires every model-invoking
worker (including NotionSearch) to accumulate token usage and record the
applied system prompt in the turn state.  A successful NotionSearch step
returns only a `messages` key — no token counters, no recorded prompt
(notion_node.py lines 153-155) — and the Researcher records a fixed
paraphrase that is not the system prompt its chain actually sent. -/
theorem claim_C4_counterexample :
    notionNode [.human "find my notes" none]
      [⟨"search_notion", [("query", "notes")], "c1"⟩] "Found: notes page"
      none false false =
      .ok ⟨[.ai "Found: notes page" []], none, none, none⟩ ∧
    researcherRecordedPrompt "2025-01-01 00:00:00" ≠
      researcherAppliedPrompt "2025-01-01 00:00:00" := by
  exact ⟨by decide, by decide⟩

/-- Claim C4 (amended): GeneralAssistant accumulates the invocation's
input/output token usage and records exactly the system prompt it applied.
Researcher accumulates the usage for every step that returns an update
whose reply is not empty-of-content-and-tool-calls (in particular for every
tool-call reply of a forced retrieval step), but records a fixed paraphrase
that differs from the prompt its chain actually sent; when the empty-reply
fallback replaces the response, the original usage metadata is dropped and
the counters carry over unchanged.  NotionSearch returns only messages:
it updates neither the counters nor the recorded prompt. -/
theorem claim_C4_amended :
    (∀ (persona : Option String) (msgs : List Msg) (c : String)
        (tcs : List ToolCall) (iu ou pin pout : Nat) (now : String),
      generalAssistantNode persona msgs c tcs (some (iu, ou)) pin pout now =
        ⟨[.ai c tcs], some (pin + iu), some (pout + ou),
         some (gaSystemPrompt (personaOrDefault persona) now)⟩) ∧
    (∀ now : String,
      researcherRecordedPrompt now ≠ researcherAppliedPrompt now) ∧
    (∀ (summary : Option String) (histRows : List HistRow) (msgs : List Msg)
        (c : String) (tcs : List ToolCall) (iu ou pin pout : Nat)
        (fid now : String) (r : ResearcherRun),
      ¬(c = "" ∧ tcs = []) →
      researcherNode summary histRows msgs c tcs (some (iu, ou)) pin pout
        fid now = .ok r →
      r.update.input_tokens_used = some (pin + iu) ∧
      r.update.output_tokens_used = some (pout + ou) ∧
      r.update.applied_system_prompt = some (researcherRecordedPrompt now)) ∧
    (∀ (summary : Option String) (msgs : List Msg) (iu ou pin pout : Nat)
        (fid now : String) (tcontent : String),
      (buildMessages summary [] msgs).getLast? = some (.tool tcontent) →
      strIn "No relevant documents found" tcontent = true →
      lastHumanContent (buildMessages summary [] msgs) ≠ "" →
      ∃ r, researcherNode summary [] msgs "" [] (some (iu, ou)) pin pout
          fid now = .ok r ∧
        r.update.input_tokens_used = some pin ∧
        r.update.output_tokens_used = some pout) ∧
    (∀ (msgs : List Msg) (classified : List ToolCall) (st : String)
        (cu : Option String) (uo er : Bool) (u : WorkerUpdate),
      notionNode msgs classified st cu uo er = .ok u →
      u.input_tokens_used = none ∧ u.output_tokens_used = none ∧
      u.applied_system_prompt = none) := by
  refine ⟨fun persona msgs c tcs iu ou pin pout now => rfl, ?_, ?_, ?_, ?_⟩
  · intro now h
    have h2 := congrArg String.length h
    rw [researcherRecordedPrompt, researcherAppliedPrompt,
      String.length_append, String.length_append] at h2
    have h3 : researcherRecordedHeader.length = researcherAppliedHeader.length := by
      omega
    exact absurd h3 (by decide)
  · intro summary histRows msgs c tcs iu ou pin pout fid now r hc hr
    cases hml : msgs.getLast? with
    | none =>
      rw [researcherNode, hml] at hr
      cases hr
    | some last =>
      rw [researcherNode, hml] at hr
      cases hhist : histToMessages histRows with
      | error e =>
        simp only [hhist] at hr
        cases hr
      | ok histMsgs =>
        simp only [hhist] at hr
        rw [if_neg hc] at hr
        cases hr
        exact ⟨rfl, rfl, rfl⟩
  · intro summary msgs iu ou pin pout fid now tcontent hlast hfound hq
    have hml := getLast_tool_of_buildMessages summary msgs tcontent hlast
    rw [researcherNode, hml]
    simp only [histToMessages, and_self, ite_true, hlast]
    rw [if_pos hfound, if_pos hq]
    exact ⟨_, rfl, rfl, rfl⟩
  · intro msgs classified st cu uo er u h
    cases hx : notionLastUserMessage msgs with
    | error e => rw [notionNode, hx] at h; cases h
    | ok s => rw [notionNode, hx] at h; cases h; exact ⟨rfl, rfl, rfl⟩

/-- Witness for C4 (amended): concrete GeneralAssistant, Researcher
(accumulating step and usage-dropping fallback step) and NotionSearch
steps with the stated token and prompt behaviour. -/
theorem claim_C4_amended_witness :
    (generalAssistantNode (some "Be brief.") [.human "hi" none] "hello" []
        (some (5, 7)) 1 2 "2025-01-01" =
      ⟨[.ai "hello" []], some 6, some 9,
       some (gaSystemPrompt (personaOrDefault (some "Be brief.")) "2025-01-01")⟩) ∧
    researcherRecordedPrompt "now" ≠ researcherAppliedPrompt "now" ∧
    ((⟨some "search_internal_knowledge",
        ⟨[.ai "ok" []], some 5, some 9, some (researcherRecordedPrompt "T")⟩⟩ :
        ResearcherRun).update.input_tokens_used = some 5 ∧
      (⟨some "search_internal_knowledge",
        ⟨[.ai "ok" []], some 5, some 9, some (researcherRecordedPrompt "T")⟩⟩ :
        ResearcherRun).update.output_tokens_used = some 9 ∧
      (⟨some "search_internal_knowledge",
        ⟨[.ai "ok" []], some 5, some 9, some (researcherRecordedPrompt "T")⟩⟩ :
        ResearcherRun).update.applied_system_prompt =
        some (researcherRecordedPrompt "T")) ∧
    (∃ r, researcherNode none []
        [.human "q" none, .tool "No relevant documents found"] "" []
        (some (3, 5)) 2 4 "ab" "T" = .ok r ∧
      r.update.input_tokens_used = some 2 ∧
      r.update.output_tokens_used = some 4) ∧
    ((⟨[.ai "S" []], none, none, none⟩ : WorkerUpdate).input_tokens_used = none ∧
      (⟨[.ai "S" []], none, none, none⟩ : WorkerUpdate).output_tokens_used = none ∧
      (⟨[.ai "S" []], none, none, none⟩ : WorkerUpdate).applied_system_prompt = none) :=
  ⟨claim_C4_amended.1 (some "Be brief.") [.human "hi" none] "hello" [] 5 7 1 2 "2025-01-01",
   claim_C4_amended.2.1 "now",
   claim_C4_amended.2.2.1 none [] [.human "q" none] "ok" [] 3 5 2 4 "ab" "T"
     ⟨some "search_internal_knowledge",
      ⟨[.ai "ok" []], some 5, some 9, some (researcherRecordedPrompt "T")⟩⟩
     (by decide) (by decide),
   claim_C4_amended.2.2.2.1 none
     [.human "q" none, .tool "No relevant documents found"] 3 5 2 4 "ab" "T"
     "No relevant documents found" rfl (by decide) (by decide),
   claim_C4_amended.2.2.2.2 [.human "x" none] [] "S" none false false
     ⟨[.ai "S" []], none, none, none⟩ (by decide)⟩

/-- Claim C8, counterexample.  The claim states that whenever the
Researcher runs with the run's most recent message being a fresh user
message, it forces an internal-retrieval tool call.  At this input the last
message is a fresh user message, but the room has one persisted history
row: the history loop at search_node.py line 65 unpacks the repository's
`(role, message, name)` 3-tuple into four targets and raises `ValueError`
before the chain is ever invoked, so the step produces no update and no
retrieval call is forced. -/
theorem claim_C8_counterexample :
    (Msg.human "q" none).isHuman = true ∧
    researcherNode none [⟨"user", "hi", "Bob"⟩] [.human "q" none] "a" []
      none 0 0 "ab" "T" = .error .valueError := by
  exact ⟨by decide, by decide⟩

/-- Claim C8 (amended): (1) whenever a Researcher step returns an update
(which requires the fetched history to have been empty — any persisted
history faults the node beforehand, see the counterexample) and the run's
most recent message is a fresh user message, the chain was bound with the
forced `search_internal_knowledge` tool choice (search_node.py lines
44-55); (2) for a step run with an empty fetched history whose model reply
is empty (no content, no tool calls), whose last model-input message is a
retrieval tool result containing "No relevant documents found" and for
which a user query exists, the worker itself synthesizes a `tavily_search`
web-search tool call instead of returning the empty reply (lines 75-95). -/
theorem claim_C8_amended :
    (∀ (summary : Option String) (histRows : List HistRow) (msgs : List Msg)
        (c : String) (tcs : List ToolCall) (u : Option (Nat × Nat))
        (pin pout : Nat) (fid now : String) (last : Msg) (r : ResearcherRun),
      msgs.getLast? = some last → last.isHuman = true →
      researcherNode summary histRows msgs c tcs u pin pout fid now = .ok r →
      r.forcedTool = some "search_internal_knowledge") ∧
    (∀ (summary : Option String) (msgs : List Msg) (u : Option (Nat × Nat))
        (pin pout : Nat) (fid now : String) (tcontent : String),
      (buildMessages summary [] msgs).getLast? = some (.tool tcontent) →
      strIn "No relevant documents found" tcontent = true →
      lastHumanContent (buildMessages summary [] msgs) ≠ "" →
      ∃ r, researcherNode summary [] msgs "" [] u pin pout fid now = .ok r ∧
        r.update.messages =
          [.ai "" [⟨"tavily_search",
            [("query", lastHumanContent (buildMessages summary [] msgs))],
            "call_" ++ fid⟩]]) := by
  constructor
  · intro summary histRows msgs c tcs u pin pout fid now last r hml hh hr
    rw [researcherNode, hml] at hr
    cases hhist : histToMessages histRows with
    | error e =>
      simp only [hhist] at hr
      cases hr
    | ok histMsgs =>
      simp only [hhist] at hr
      cases hr
      simp [hh]
  · intro summary msgs u pin pout fid now tcontent hlast hfound hq
    have hml := getLast_tool_of_buildMessages summary msgs tcontent hlast
    rw [researcherNode, hml]
    simp only [histToMessages, and_self, ite_true, hlast]
    rw [if_pos hfound, if_pos hq]
    exact ⟨_, rfl, rfl⟩

/-- Witness for C8 (amended): a completed step after a fresh user message
carries the forced retrieval binding; an empty reply after a failed
retrieval synthesizes the web-search call. -/
theorem claim_C8_amended_witness :
    ((⟨some "search_internal_knowledge",
       ⟨[.ai "sure" []], some 0, some 0, some (researcherRecordedPrompt "T")⟩⟩ :
       ResearcherRun).forcedTool = some "search_internal_knowledge") ∧
    (∃ r, researcherNode none [] [.human "q" none, .tool "No relevant documents found"]
        "" [] none 0 0 "ab" "T" = .ok r ∧
      r.update.messages = [.ai "" [⟨"tavily_search", [("query", "q")], "call_ab"⟩]]) :=
  ⟨claim_C8_amended.1 none [] [.human "hi" none] "sure" [] none 0 0 "ab" "T"
      (.human "hi" none)
      ⟨some "search_internal_knowledge",
       ⟨[.ai "sure" []], some 0, some 0, some (researcherRecordedPrompt "T")⟩⟩
      rfl rfl (by decide),
   claim_C8_amended.2 none [.human "q" none, .tool "No relevant documents found"] none 0 0
      "ab" "T" "No relevant documents found" rfl (by decide) (by decide)⟩

/-- Two strings with equal underlying character lists are equal. -/
theorem strOfDataEq {s t : String} (h : s.data = t.data) : s = t := by
  cases s; cases t; exact congrArg String.mk h

/-- A buffer reported empty by `has_content` holds the empty string. -/
theorem buffer_empty_of_has_content_false (b : StreamBuffer)
    (h : b.has_content = false) : b.buffer = "" := by
  unfold StreamBuffer.has_content at h
  rw [decide_eq_false_iff_not] at h
  have h0 : b.buffer.data.length = 0 :=
    Nat.eq_zero_of_not_pos h
  exact strOfDataEq (List.length_eq_zero.mp h0)

/-- Conservation of streamed text: the concatenation of everything
`stream_with_buffer` yields equals the initial buffer content followed by
the concatenation of every text its events contribute.  Nothing is dropped
and nothing is re-emitted. -/
theorem streamWithBuffer_conservation (endT : Nat) :
    ∀ (events : List StreamEvent) (b : StreamBuffer),
      concatStrs (streamWithBuffer b endT events) =
        b.buffer ++ concatStrs (events.map addedText) := by
  intro events
  induction events with
  | nil =>
    intro b
    unfold streamWithBuffer
    cases hc : b.has_content with
    | false =>
      rw [buffer_empty_of_has_content_false b hc]
      simp [concatStrs, String.empty_append]
    | true =>
      simp [concatStrs, StreamBuffer.flush, String.append_empty]
  | cons e rest ih =>
    intro b
    obtain ⟨ev, now⟩ := e
    cases hx : extractText ev with
    | none =>
      simp only [streamWithBuffer, hx]
      rw [ih b]
      simp [addedText, hx, concatStrs, String.empty_append]
    | some t =>
      simp only [streamWithBuffer, hx]
      by_cases ht : t = ""
      · subst ht
        rw [if_pos rfl, ih b]
        simp [addedText, hx, concatStrs, String.empty_append]
      · rw [if_neg ht]
        unfold StreamBuffer.add
        by_cases hfl : (b.buffer ++ t).length ≥ b.char_threshold ∨
            now - b.last_flush_time ≥ b.time_threshold
        · rw [if_pos hfl]
          unfold StreamBuffer.flush
          show concatStrs (if b.buffer ++ t = "" then
              streamWithBuffer { b with buffer := "", last_flush_time := now } endT rest
            else (b.buffer ++ t) ::
              streamWithBuffer { b with buffer := "", last_flush_time := now } endT rest) = _
          by_cases hf : b.buffer ++ t = ""
          · rw [if_pos hf, ih]
            simp only [addedText, hx, Option.getD_some, List.map_cons, concatStrs]
            rw [← String.append_assoc, hf, String.empty_append]
          · rw [if_neg hf]
            simp only [concatStrs]
            rw [ih]
            simp only [addedText, hx, Option.getD_some, List.map_cons, concatStrs]
            rw [String.empty_append, String.append_assoc]
        · rw [if_neg hfl]
          show concatStrs (streamWithBuffer
            { b with buffer := b.buffer ++ t } endT rest) = _
          rw [ih]
          simp only [addedText, hx, Option.getD_some, List.map_cons, concatStrs]
          rw [String.append_assoc]

/-- Claim C10: for every finite event stream fed through
`stream_with_buffer` starting from a fresh (empty) buffer, the
concatenation of all yielded chunks equals the concatenation of all
extracted texts — every yielded chunk is new delta text, and no text is
dropped. -/
theorem claim_C10 (tt ct lf endT : Nat) (events : List StreamEvent) :
    concatStrs (streamWithBuffer ⟨"", tt, ct, lf⟩ endT events) =
      concatStrs (events.map addedText) := by
  rw [streamWithBuffer_conservation]
  exact String.empty_append _

/-- Claim C6, counterexample.  The claim states that feeding "Hello",
"Hello" (duplicate snapshot), " World" through the buffer with
char_threshold=10 yields the duplicate's flushed text exactly once.  The
buffer has no deduplication: it flushes "HelloHello" (the duplicate is
flushed twice — "Hello" occurs twice in the emitted text) and then
" World" at stream end. -/
theorem claim_C6_counterexample :
    streamWithBuffer ⟨"", 1000, 10, 0⟩ 0 c6events = ["HelloHello", " World"] ∧
    occCountStr "Hello" (concatStrs ["HelloHello", " World"]) = 2 := by
  exact ⟨by decide, by decide⟩

/-- Claim C6 (amended): feeding the chunks "Hello", "Hello", " World"
through the buffer with char_threshold=10 (time threshold not reached)
yields exactly "HelloHello" then " World" — the duplicate's text is
flushed twice, since the buffer does not deduplicate; `add` flushes
exactly when the accumulated character count reaches the character
threshold or the time since the last flush reaches the time threshold, and
any remaining buffered text is unconditionally flushed at stream end. -/
theorem claim_C6_amended :
    (streamWithBuffer ⟨"", 1000, 10, 0⟩ 0 c6events = ["HelloHello", " World"]) ∧
    (∀ (b : StreamBuffer) (text : String) (now : Nat),
      ((b.add text now).2.isSome = true ↔
        (b.buffer ++ text).length ≥ b.char_threshold ∨
        now - b.last_flush_time ≥ b.time_threshold)) ∧
    (∀ (b : StreamBuffer) (endT : Nat), b.has_content = true →
      streamWithBuffer b endT [] = [b.buffer]) := by
  refine ⟨by decide, ?_, ?_⟩
  · intro b text now
    simp only [StreamBuffer.add, StreamBuffer.flush]
    by_cases h : (b.buffer ++ text).length ≥ b.char_threshold ∨
        now - b.last_flush_time ≥ b.time_threshold
    · rw [if_pos h]
      simpa using h
    · rw [if_neg h]
      simpa using h
  · intro b endT h
    simp [streamWithBuffer, h, StreamBuffer.flush]

/-- Witness for C6 (amended): a buffer holding leftover text flushes it at
stream end. -/
theorem claim_C6_amended_witness :
    streamWithBuffer ⟨"rest", 9, 9, 9⟩ 9 [] = ["rest"] :=
  claim_C6_amended.2.2 ⟨"rest", 9, 9, 9⟩ 9 (by decide)
